import Mathlib

/-!
Verification of the live-sync core of `mdpreview` (package `server`):
the atomic persist (`saveContent`), the session reader loop (`reader`),
the change-relay writer loop (`writer`) and the file watcher (`watcher`),
shallowly embedded over an explicit filesystem map and explicit failure
oracles for the fallible OS and network calls.
-/

namespace Mdpreview

/-- The filesystem visible to the server, as a finite map from paths to
file contents (byte strings modelled as `String`). -/
abbrev FS := List (String × String)

/-- `os.ReadFile`: look a path up; `none` models a read error
(file absent). -/
def FS.read : FS → String → Option String
  | [], _ => none
  | (q, c) :: t, p => if p = q then some c else FS.read t p

/-- Remove every binding of a path (helper for `FS.write` / `FS.rename`). -/
def FS.remove : FS → String → FS
  | [], _ => []
  | (q, c) :: t, p => if q = p then FS.remove t p else (q, c) :: FS.remove t p

/-- `os.WriteFile`: create or truncate the file at a path with the given
content. -/
def FS.write (fs : FS) (p c : String) : FS :=
  (p, c) :: FS.remove fs p

/-- `os.Rename src dst`: move the file at `src` over `dst`. If `src` is
absent the filesystem is unchanged (the failing case is driven by the
oracle in `saveContent`, never by this branch). -/
def FS.rename (fs : FS) (src dst : String) : FS :=
  match FS.read fs src with
  | none => fs
  | some c => FS.write (FS.remove fs src) dst c

/-- Failure oracle for the two fallible filesystem calls inside
`saveContent`. `writeErr = some e` makes `os.WriteFile` fail with error
text `e`, leaving `writeJunk` as the (possibly incomplete) bytes of the
temporary file; `renameErr = some e` makes `os.Rename` fail with error
text `e`. -/
structure FsOracle where
  writeErr : Option String
  writeJunk : String
  renameErr : Option String

/-- Shallow embedding of `Server.saveContent` (server.go): write the
content to `path + ".tmp"`, then rename the temporary file over `path`.
Returns the resulting filesystem and the Go error (`none` = `nil`).
A write failure returns before any rename is attempted. -/
def saveContent (path content : String) (fs : FS) (o : FsOracle) :
    FS × Option String :=
  let tmpFile := path ++ ".tmp"
  match o.writeErr with
  | some e => (FS.write fs tmpFile o.writeJunk, some e)
  | none =>
    let fs1 := FS.write fs tmpFile content
    match o.renameErr with
    | some e => (fs1, some e)
    | none => (FS.rename fs1 tmpFile path, none)

theorem FS.read_remove (fs : FS) (p q : String) :
    FS.read (FS.remove fs q) p = if p = q then none else FS.read fs p := by
  induction fs with
  | nil => simp [FS.read, FS.remove]
  | cons a t ih =>
    obtain ⟨r, c⟩ := a
    simp only [FS.remove]
    by_cases hrq : r = q
    · simp only [if_pos hrq, ih]
      by_cases hpq : p = q
      · simp [hpq]
      · have hpr : p ≠ r := fun h => hpq (h.trans hrq)
        simp [FS.read, hpq, hpr]
    · simp only [if_neg hrq, FS.read, ih]
      by_cases hpr : p = r
      · have hpq : p ≠ q := fun h => hrq ((hpr.symm.trans h))
        simp [hpr, hpq, hrq]
      · by_cases hpq : p = q
        · have hqr : ¬q = r := fun h => hpr (hpq.trans h)
          simp [hpr, hpq, hqr]
        · simp [hpr, hpq]

theorem FS.read_write (fs : FS) (p q c : String) :
    FS.read (FS.write fs q c) p = if p = q then some c else FS.read fs p := by
  by_cases hpq : p = q <;>
    simp [FS.write, FS.read, hpq, FS.read_remove]

theorem path_ne_tmp (p : String) : p ≠ p ++ ".tmp" := by
  intro h
  have hl := congrArg String.length h
  rw [String.length_append] at hl
  have h4 : ".tmp".length = 4 := by decide
  rw [h4] at hl
  omega

/-- C1: `saveContent` writes the content to the sibling temporary file
`path ++ ".tmp"` and then renames it over `path`. On success the target
holds the new content and the temporary file is gone. A write failure is
reported (non-`nil` error) before any rename, and the target's content
is unchanged (only the temporary path was touched). A rename failure is
reported, the target's content is unchanged, and the temporary file is
left behind holding the written content (the orphan). -/
theorem saveContent_atomic (path content : String) (fs : FS) (o : FsOracle) :
    (o.writeErr = none → o.renameErr = none →
      (saveContent path content fs o).2 = none ∧
      FS.read (saveContent path content fs o).1 path = some content ∧
      FS.read (saveContent path content fs o).1 (path ++ ".tmp") = none) ∧
    (∀ e, o.writeErr = some e →
      (saveContent path content fs o).2 = some e ∧
      FS.read (saveContent path content fs o).1 path = FS.read fs path) ∧
    (∀ e, o.writeErr = none → o.renameErr = some e →
      (saveContent path content fs o).2 = some e ∧
      FS.read (saveContent path content fs o).1 path = FS.read fs path ∧
      FS.read (saveContent path content fs o).1 (path ++ ".tmp") =
        some content) := by
  have hne : path ≠ path ++ ".tmp" := path_ne_tmp path
  have hne' : path ++ ".tmp" ≠ path := Ne.symm hne
  refine ⟨fun hw hr => ?_, fun e hw => ?_, fun e hw hr => ?_⟩
  · simp [saveContent, hw, hr, FS.rename, FS.read_write, FS.read_remove,
      hne, hne']
  · simp [saveContent, hw, FS.read_write, hne]
  · simp [saveContent, hw, hr, FS.read_write, hne]

/-- Witness for C1: concrete run of all three branches of
`saveContent_atomic`. -/
theorem saveContent_atomic_witness :
    FS.read (saveContent "a.md" "new" [("a.md", "old")]
        ⟨none, "", none⟩).1 "a.md" = some "new" ∧
    FS.read (saveContent "a.md" "new" [("a.md", "old")]
        ⟨some "disk full", "ne", none⟩).1 "a.md" = FS.read [("a.md", "old")] "a.md" ∧
    FS.read (saveContent "a.md" "new" [("a.md", "old")]
        ⟨none, "", some "cross-device"⟩).1 "a.md" = FS.read [("a.md", "old")] "a.md" :=
  ⟨((saveContent_atomic "a.md" "new" [("a.md", "old")]
      ⟨none, "", none⟩).1 rfl rfl).2.1,
   ((saveContent_atomic "a.md" "new" [("a.md", "old")]
      ⟨some "disk full", "ne", none⟩).2.1 "disk full" rfl).2,
   ((saveContent_atomic "a.md" "new" [("a.md", "old")]
      ⟨none, "", some "cross-device"⟩).2.2 "cross-device" rfl rfl).2.1⟩

/-- A decoded inbound or outbound JSON object, as Go's
`map[string]string` after `json.Unmarshal` / before `json.Marshal`. -/
abbrev Msg := List (String × String)

/-- Go map indexing `m[key]` on a `map[string]string`: the zero value
`""` when the key is absent. -/
def Msg.get : Msg → String → String
  | [], _ => ""
  | (k, v) :: t, key => if key = k then v else Msg.get t key

/-- The fixed error payload the reader sends on a persist failure
(server.go, `reader`, the `response` map). -/
def errorResponse : Msg := [("type", "error"), ("error", "Failed to save file")]

/-- The initial-content payload the reader sends on session start
(server.go, `reader`, the `msg` map). -/
def contentMsg (c : String) : Msg := [("type", "content"), ("content", c)]

/-- One iteration's stimulus for the reader loop: cancellation observed,
a failed `ws.ReadMessage` (with whether the close was unexpected), or a
received frame — `none` models a payload `json.Unmarshal` rejects,
`some m` the decoded string map; `o` drives the filesystem calls of a
potential save. -/
inductive REvent where
  | cancel
  | readFail (unexpectedClose : Bool)
  | frame (payload : Option Msg) (o : FsOracle)

/-- Shallow embedding of the reader loop's handling of one received
frame (server.go, `reader`, the parse + `switch msg["type"]` block):
returns the new filesystem, the payloads written back to the websocket,
and the log lines. -/
def handleFrame (path : String) (fs : FS) (payload : Option Msg)
    (o : FsOracle) : FS × List Msg × List String :=
  match payload with
  | none => (fs, [], ["failed to parse message"])
  | some msg =>
    if Msg.get msg "type" = "save" then
      match saveContent path (Msg.get msg "content") fs o with
      | (fs', some e) => (fs', [errorResponse], ["failed to save file: " ++ e])
      | (fs', none) => (fs', [], ["file saved successfully"])
    else (fs, [], [])

/-- Shallow embedding of the reader loop (server.go, `reader`, the
`for`/`select`): processes stimuli until cancellation or a read error
terminates it. Returns the final filesystem, the payloads sent, the log
lines, and whether the loop returned (a returned loop runs the deferred
`ws.Close()`). -/
def readerLoop (path : String) : List REvent → FS → FS × List Msg × List String × Bool
  | [], fs => (fs, [], [], false)
  | REvent.cancel :: _, fs => (fs, [], ["reader shutting down"], true)
  | REvent.readFail u :: _, fs =>
      (fs, [], if u then ["unexpected websocket close"] else [], true)
  | REvent.frame p o :: rest, fs =>
      let r1 := handleFrame path fs p o
      let r2 := readerLoop path rest r1.1
      (r2.1, r1.2.1 ++ r2.2.1, r1.2.2 ++ r2.2.2.1, r2.2.2.2)

/-- Result of a whole reader session. -/
structure RResult where
  fs : FS
  sent : List Msg
  logs : List String
  closed : Bool

/-- Shallow embedding of `Server.reader` (server.go): set the read
deadline (`deadlineOk` = that call's success), send the current file
content as the initial payload when the file is readable (`sendOk` =
the `WriteMessage` success; a failure is only logged), then run the
loop. -/
def readerRun (path : String) (fs0 : FS) (deadlineOk sendOk : Bool)
    (evs : List REvent) : RResult :=
  if !deadlineOk then
    ⟨fs0, [], ["failed to set read deadline"], true⟩
  else
    let first :=
      match FS.read fs0 path with
      | some c =>
          if sendOk then (([contentMsg c] : List Msg), ([] : List String))
          else (([] : List Msg), ["failed to send initial content"])
      | none => (([] : List Msg), ([] : List String))
    let r := readerLoop path evs fs0
    ⟨r.1, first.1 ++ r.2.1, first.2 ++ r.2.2.1, r.2.2.2⟩

/-- Whether a payload carries the initial-content tag. -/
def isContentTagged (m : Msg) : Bool := Msg.get m "type" == "content"

theorem handleFrame_out (path : String) (fs : FS) (p : Option Msg)
    (o : FsOracle) :
    (handleFrame path fs p o).2.1 = [] ∨
    (handleFrame path fs p o).2.1 = [errorResponse] := by
  rcases p with _ | msg
  · simp [handleFrame]
  · by_cases ht : Msg.get msg "type" = "save"
    · simp only [handleFrame, if_pos ht]
      rcases hs : saveContent path (Msg.get msg "content") fs o with ⟨fs', e⟩
      rcases e with _ | e
      · simp [hs]
      · simp [hs]
    · simp [handleFrame, if_neg ht]

theorem readerLoop_out_error (path : String) (evs : List REvent) (fs : FS) :
    ∀ m ∈ (readerLoop path evs fs).2.1, m = errorResponse := by
  induction evs generalizing fs with
  | nil => simp [readerLoop]
  | cons ev rest ih =>
    match ev with
    | REvent.cancel => simp [readerLoop]
    | REvent.readFail u => simp [readerLoop]
    | REvent.frame p o =>
      intro m hm
      simp only [readerLoop, List.mem_append] at hm
      rcases hm with hm | hm
      · rcases handleFrame_out path fs p o with h | h
        · rw [h] at hm; simp at hm
        · rw [h] at hm; simpa using hm
      · exact ih _ m hm

/-- Whether a decoded JSON object carries a key (Go's `_, ok := m[k]`). -/
def Msg.hasKey : Msg → String → Bool
  | [], _ => false
  | (k, _) :: t, key => key = k || Msg.hasKey t key

theorem Msg.get_of_not_hasKey (m : Msg) (key : String)
    (h : Msg.hasKey m key = false) : Msg.get m key = "" := by
  induction m with
  | nil => rfl
  | cons a t ih =>
    obtain ⟨k, v⟩ := a
    simp only [Msg.hasKey, Bool.or_eq_false_iff, decide_eq_false_iff_not] at h
    simp [Msg.get, h.1, ih h.2]

theorem handleFrame_save_fail (path : String) (fs : FS) (m : Msg)
    (o : FsOracle) (e : String) (ht : Msg.get m "type" = "save")
    (he : (saveContent path (Msg.get m "content") fs o).2 = some e) :
    handleFrame path fs (some m) o =
      ((saveContent path (Msg.get m "content") fs o).1, [errorResponse],
       ["failed to save file: " ++ e]) := by
  simp only [handleFrame, if_pos ht]
  rcases hs : saveContent path (Msg.get m "content") fs o with ⟨fs', r⟩
  rcases r with _ | e'
  · rw [hs] at he; simp at he
  · rw [hs] at he
    simp only [Option.some.injEq] at he
    subst he
    simp [hs]

theorem handleFrame_save_ok (path : String) (fs : FS) (m : Msg)
    (o : FsOracle) (ht : Msg.get m "type" = "save")
    (he : (saveContent path (Msg.get m "content") fs o).2 = none) :
    handleFrame path fs (some m) o =
      ((saveContent path (Msg.get m "content") fs o).1, [],
       ["file saved successfully"]) := by
  simp only [handleFrame, if_pos ht]
  rcases hs : saveContent path (Msg.get m "content") fs o with ⟨fs', r⟩
  rcases r with _ | e'
  · simp [hs]
  · rw [hs] at he; simp at he

/-- C2: handling the inbound message `{"type":"save","content":C}` in
the reader loop and then reading the file at the session's path yields
exactly `C`, for every string `C`, whenever the save's filesystem calls
succeed (a successful save). -/
theorem save_round_trip (path C : String) (fs : FS) (o : FsOracle)
    (hw : o.writeErr = none) (hr : o.renameErr = none) :
    FS.read (readerLoop path
        [REvent.frame (some [("type", "save"), ("content", C)]) o] fs).1 path
      = some C := by
  have ht : Msg.get [("type", "save"), ("content", C)] "type" = "save" := rfl
  have hc : Msg.get [("type", "save"), ("content", C)] "content" = C := by
    simp [Msg.get]
  have hsave := saveContent_atomic path C fs o
  have hok := hsave.1 hw hr
  simp only [readerLoop, handleFrame_save_ok path fs _ o ht (hc ▸ hok.1)]
  rw [hc]
  exact hok.2.1

/-- Witness for C2: a concrete successful save round-trips. -/
theorem save_round_trip_witness :
    FS.read (readerLoop "a.md"
        [REvent.frame (some [("type", "save"), ("content", "hello")])
          ⟨none, "", none⟩] [("a.md", "old")]).1 "a.md" = some "hello" :=
  save_round_trip "a.md" "hello" [("a.md", "old")] ⟨none, "", none⟩ rfl rfl

/-- C6: in the reader loop, (a) an unparseable payload is logged and
skipped, the loop continuing on the remaining stimuli with the
filesystem unchanged and nothing written back; (b) a message whose tag
is not `save` is ignored silently — no filesystem write, nothing sent —
and the loop continues; (c) a save whose persist fails sends the fixed
error payload back on the connection and the loop continues on the
remaining stimuli, still able to handle subsequent saves. -/
theorem reader_inbound_error_handling (path : String) (fs : FS)
    (o : FsOracle) (rest : List REvent) (m : Msg) (e : String) :
    (readerLoop path (REvent.frame none o :: rest) fs =
      ((readerLoop path rest fs).1,
       (readerLoop path rest fs).2.1,
       "failed to parse message" :: (readerLoop path rest fs).2.2.1,
       (readerLoop path rest fs).2.2.2)) ∧
    (Msg.get m "type" ≠ "save" →
      handleFrame path fs (some m) o = (fs, [], []) ∧
      readerLoop path (REvent.frame (some m) o :: rest) fs =
        readerLoop path rest fs) ∧
    (Msg.get m "type" = "save" →
      (saveContent path (Msg.get m "content") fs o).2 = some e →
      readerLoop path (REvent.frame (some m) o :: rest) fs =
        ((readerLoop path rest (saveContent path (Msg.get m "content") fs o).1).1,
         errorResponse ::
           (readerLoop path rest (saveContent path (Msg.get m "content") fs o).1).2.1,
         ("failed to save file: " ++ e) ::
           (readerLoop path rest (saveContent path (Msg.get m "content") fs o).1).2.2.1,
         (readerLoop path rest (saveContent path (Msg.get m "content") fs o).1).2.2.2)) := by
  refine ⟨?_, fun ht => ?_, fun ht he => ?_⟩
  · simp [readerLoop, handleFrame]
  · have hf : handleFrame path fs (some m) o = (fs, [], []) := by
      simp [handleFrame, if_neg ht]
    exact ⟨hf, by simp [readerLoop, hf]⟩
  · simp [readerLoop, handleFrame_save_fail path fs m o e ht he]

/-- Witness for C6: a failing save (write error) answered with the error
payload, then a later successful save still handled. -/
theorem reader_inbound_error_handling_witness :
    readerLoop "a.md"
        [REvent.frame (some [("type", "save"), ("content", "x")])
           ⟨some "boom", "junk", none⟩,
         REvent.frame (some [("type", "save"), ("content", "y")])
           ⟨none, "", none⟩] [("a.md", "old")] =
      ((readerLoop "a.md"
          [REvent.frame (some [("type", "save"), ("content", "y")])
            ⟨none, "", none⟩]
          (saveContent "a.md"
            (Msg.get [("type", "save"), ("content", "x")] "content")
            [("a.md", "old")] ⟨some "boom", "junk", none⟩).1).1,
       errorResponse ::
         (readerLoop "a.md"
           [REvent.frame (some [("type", "save"), ("content", "y")])
             ⟨none, "", none⟩]
           (saveContent "a.md"
             (Msg.get [("type", "save"), ("content", "x")] "content")
             [("a.md", "old")] ⟨some "boom", "junk", none⟩).1).2.1,
       ("failed to save file: " ++ "boom") ::
         (readerLoop "a.md"
           [REvent.frame (some [("type", "save"), ("content", "y")])
             ⟨none, "", none⟩]
           (saveContent "a.md"
             (Msg.get [("type", "save"), ("content", "x")] "content")
             [("a.md", "old")] ⟨some "boom", "junk", none⟩).1).2.2.1,
       (readerLoop "a.md"
           [REvent.frame (some [("type", "save"), ("content", "y")])
             ⟨none, "", none⟩]
           (saveContent "a.md"
             (Msg.get [("type", "save"), ("content", "x")] "content")
             [("a.md", "old")] ⟨some "boom", "junk", none⟩).1).2.2.2) :=
  (reader_inbound_error_handling "a.md" [("a.md", "old")]
      ⟨some "boom", "junk", none⟩
      [REvent.frame (some [("type", "save"), ("content", "y")])
        ⟨none, "", none⟩]
      [("type", "save"), ("content", "x")] "boom").2.2 rfl rfl

/-- C9: an inbound message tagged `save` with no `content` key persists
the empty string (Go's map zero value): when the filesystem calls
succeed, the file is overwritten with empty content, the save is
reported successful in the log, and no error payload is sent. -/
theorem save_missing_content (path : String) (fs : FS) (o : FsOracle)
    (m : Msg) (ht : Msg.get m "type" = "save")
    (hc : Msg.hasKey m "content" = false)
    (hw : o.writeErr = none) (hr : o.renameErr = none) :
    FS.read (handleFrame path fs (some m) o).1 path = some "" ∧
    (handleFrame path fs (some m) o).2.1 = [] ∧
    (handleFrame path fs (some m) o).2.2 = ["file saved successfully"] := by
  have hge : Msg.get m "content" = "" := Msg.get_of_not_hasKey m "content" hc
  have hsave := saveContent_atomic path "" fs o
  have hok := hsave.1 hw hr
  have hf := handleFrame_save_ok path fs m o ht (by rw [hge]; exact hok.1)
  rw [hf]
  refine ⟨?_, rfl, rfl⟩
  rw [hge]
  exact hok.2.1

/-- Witness for C9: a save frame without a `content` field empties the
file. -/
theorem save_missing_content_witness :
    FS.read (handleFrame "a.md" [("a.md", "old")]
        (some [("type", "save")]) ⟨none, "", none⟩).1 "a.md" = some "" :=
  (save_missing_content "a.md" [("a.md", "old")] ⟨none, "", none⟩
    [("type", "save")] rfl rfl rfl rfl).1

/-- C10: for any two persist failures — whatever the two underlying
error values and however they arose — the payload sent back to the
client is the same fixed JSON object `{"type":"error","error":"Failed
to save file"}`; no text of the underlying filesystem error reaches the
connection. -/
theorem error_payload_constant (path content : String) (fs : FS)
    (o1 o2 : FsOracle)
    (h1 : (saveContent path content fs o1).2.isSome = true)
    (h2 : (saveContent path content fs o2).2.isSome = true) :
    (handleFrame path fs (some [("type", "save"), ("content", content)]) o1).2.1 =
      (handleFrame path fs (some [("type", "save"), ("content", content)]) o2).2.1 ∧
    (handleFrame path fs (some [("type", "save"), ("content", content)]) o1).2.1 =
      [[("type", "error"), ("error", "Failed to save file")]] := by
  have ht : Msg.get [("type", "save"), ("content", content)] "type" = "save" := rfl
  have hc : Msg.get [("type", "save"), ("content", content)] "content" = content := by
    simp [Msg.get]
  rcases he1 : (saveContent path content fs o1).2 with _ | e1
  · rw [he1] at h1; simp at h1
  · rcases he2 : (saveContent path content fs o2).2 with _ | e2
    · rw [he2] at h2; simp at h2
    · rw [handleFrame_save_fail path fs _ o1 e1 ht (by rw [hc]; exact he1),
        handleFrame_save_fail path fs _ o2 e2 ht (by rw [hc]; exact he2)]
      exact ⟨rfl, rfl⟩

/-- Witness for C10: a write failure and a rename failure, with
different error texts, yield the identical fixed error payload. -/
theorem error_payload_constant_witness :
    (handleFrame "a.md" [("a.md", "old")]
        (some [("type", "save"), ("content", "x")])
        ⟨some "disk full", "junk", none⟩).2.1 =
      (handleFrame "a.md" [("a.md", "old")]
        (some [("type", "save"), ("content", "x")])
        ⟨none, "", some "cross-device link"⟩).2.1 ∧
    (handleFrame "a.md" [("a.md", "old")]
        (some [("type", "save"), ("content", "x")])
        ⟨some "disk full", "junk", none⟩).2.1 =
      [[("type", "error"), ("error", "Failed to save file")]] :=
  error_payload_constant "a.md" "x" [("a.md", "old")]
    ⟨some "disk full", "junk", none⟩ ⟨none, "", some "cross-device link"⟩
    rfl rfl

/-- C7: with a readable file, the reader's first delivered message is
the `content`-tagged payload carrying the literal file bytes; it is the
only `content`-tagged payload of the whole session; and a failure of
that initial send is non-fatal — the loop's filesystem effects,
termination and subsequent sends are unchanged, only the first payload
is missing. -/
theorem initial_sync (path c : String) (fs0 : FS) (evs : List REvent)
    (h : FS.read fs0 path = some c) :
    (readerRun path fs0 true true evs).sent.head? = some (contentMsg c) ∧
    (readerRun path fs0 true true evs).sent.filter isContentTagged =
      [contentMsg c] ∧
    (readerRun path fs0 true false evs).fs =
      (readerRun path fs0 true true evs).fs ∧
    (readerRun path fs0 true false evs).closed =
      (readerRun path fs0 true true evs).closed ∧
    (readerRun path fs0 true false evs).sent =
      (readerRun path fs0 true true evs).sent.tail := by
  have hout : ∀ m ∈ (readerLoop path evs fs0).2.1, isContentTagged m = false := by
    intro m hm
    rw [readerLoop_out_error path evs fs0 m hm]
    rfl
  have hfil : (readerLoop path evs fs0).2.1.filter isContentTagged = [] := by
    rw [List.filter_eq_nil_iff]
    intro a ha
    simp [hout a ha]
  have hct : isContentTagged (contentMsg c) = true := rfl
  refine ⟨?_, ?_, ?_, ?_, ?_⟩ <;>
    simp [readerRun, h, List.filter_cons, hct, hfil]

/-- Witness for C7: a concrete session whose first message is the
literal file content. -/
theorem initial_sync_witness :
    (readerRun "a.md" [("a.md", "# hi")] true true []).sent.head? =
      some (contentMsg "# hi") :=
  (initial_sync "a.md" "# hi" [("a.md", "# hi")] [] rfl).1

/-- Shallow embedding of `Server.render` (server.go): read the file,
then produce HTML via the markdown renderer `md` (the embedded GFM
renderer or the remote endpoint); `renderFail` injects a remote/renderer
failure, and a missing file is a render failure too. -/
def render (fs : FS) (path : String) (md : String → String)
    (renderFail : Bool) : Option String :=
  match FS.read fs path with
  | none => none
  | some input => if renderFail then none else some (md input)

/-- Outbound websocket frames written by the writer loop. -/
inductive WOut where
  | text (s : String)
  | ping
deriving DecidableEq

/-- One iteration's stimulus for the writer loop's three-way `select`:
cancellation, a change notification (with that iteration's
render-failure, `SetWriteDeadline` and `WriteMessage` oracles), or a
ping-ticker tick (with its two write-call oracles). -/
inductive WEvent where
  | cancel
  | change (renderFail deadlineOk writeOk : Bool)
  | tick (deadlineOk writeOk : Bool)

/-- Writer loop state: frames sent, log lines, and whether the deferred
`ws.Close()` has run (the loop returned). -/
structure WState where
  sent : List WOut
  logs : List String
  closed : Bool
deriving DecidableEq

/-- One iteration of `Server.writer`'s `select` (server.go): the new
state and whether the loop continues. A `false` second component models
`return`, which runs the deferred `ws.Close()`. -/
def writerStep (fs : FS) (path : String) (md : String → String)
    (st : WState) : WEvent → WState × Bool
  | WEvent.cancel =>
      ({ st with logs := st.logs ++ ["writer shutting down"], closed := true }, false)
  | WEvent.change rf dOk wOk =>
      match render fs path md rf with
      | none =>
          ({ st with logs := st.logs ++ ["failed to render markdown"] }, true)
      | some r =>
        if dOk = false then ({ st with closed := true }, false)
        else if wOk = false then
          ({ st with logs := st.logs ++ ["failed to write message"], closed := true }, false)
        else ({ st with sent := st.sent ++ [WOut.text r] }, true)
  | WEvent.tick dOk wOk =>
      if dOk = false then ({ st with closed := true }, false)
      else if wOk = false then
        ({ st with logs := st.logs ++ ["failed to send ping"], closed := true }, false)
      else ({ st with sent := st.sent ++ [WOut.ping] }, true)

/-- The writer loop over a finite stimulus sequence. -/
def writerRun (fs : FS) (path : String) (md : String → String) :
    List WEvent → WState → WState
  | [], st => st
  | ev :: rest, st =>
    let r := writerStep fs path md st ev
    if r.2 then writerRun fs path md rest r.1 else r.1

/-- C5: in the writer loop, a render failure on a change notification
is logged and that iteration skipped — the loop goes on to the
remaining stimuli; whereas a failed write of rendered content (deadline
set or message write) and a failed ping write each terminate the loop
at that event — the remaining stimuli are never processed — with the
connection closed. -/
theorem writer_error_handling (fs : FS) (path : String)
    (md : String → String) (st : WState) (rest : List WEvent)
    (rf dOk wOk : Bool) :
    (render fs path md rf = none →
      writerRun fs path md (WEvent.change rf dOk wOk :: rest) st =
        writerRun fs path md rest
          { st with logs := st.logs ++ ["failed to render markdown"] }) ∧
    (∀ r, render fs path md rf = some r → dOk = false ∨ wOk = false →
      (writerRun fs path md (WEvent.change rf dOk wOk :: rest) st).closed = true ∧
      writerRun fs path md (WEvent.change rf dOk wOk :: rest) st =
        (writerStep fs path md st (WEvent.change rf dOk wOk)).1) ∧
    (dOk = false ∨ wOk = false →
      (writerRun fs path md (WEvent.tick dOk wOk :: rest) st).closed = true ∧
      writerRun fs path md (WEvent.tick dOk wOk :: rest) st =
        (writerStep fs path md st (WEvent.tick dOk wOk)).1) := by
  refine ⟨fun hr => ?_, fun r hr hd => ?_, fun hd => ?_⟩
  · simp [writerRun, writerStep, hr]
  · rcases hd with hd | hd
    · subst hd; simp [writerRun, writerStep, hr]
    · subst hd
      rcases Bool.eq_false_or_eq_true dOk with hdo | hdo <;>
        simp [writerRun, writerStep, hr, hdo]
  · rcases hd with hd | hd
    · subst hd; simp [writerRun, writerStep]
    · subst hd
      rcases Bool.eq_false_or_eq_true dOk with hdo | hdo <;>
        simp [writerRun, writerStep, hdo]

/-- Witness for C5: a failed ping write terminates the loop before the
later change event, with the connection closed. -/
theorem writer_error_handling_witness :
    (writerRun [("a.md", "x")] "a.md" (fun s => s)
        [WEvent.tick true false, WEvent.change false true true]
        ⟨[], [], false⟩).closed = true :=
  ((writer_error_handling [("a.md", "x")] "a.md" (fun s => s)
      ⟨[], [], false⟩ [WEvent.change false true true] false true false).2.2
    (Or.inr rfl)).1

/-- Low-level filesystem event operations (`fsnotify.Op`). -/
inductive FsOp where
  | create
  | write
  | remove
  | rename
  | chmod
deriving DecidableEq

/-- What the watcher does with one event: whether it emits a change
notification, and the delay (ms) of a scheduled re-watch, if any. -/
structure WatchAction where
  emit : Bool
  rewatchDelayMs : Option Nat
deriving DecidableEq

/-- Classification performed by the `switch event.Op` in `Server.watcher`
(server.go): `Remove`/`Rename` spawn the delayed (100ms) re-watch
goroutine and emit; `Write`/`Chmod` emit directly; anything else is
ignored. -/
def classifyEvent : FsOp → WatchAction
  | FsOp.remove => ⟨true, some 100⟩
  | FsOp.rename => ⟨true, some 100⟩
  | FsOp.write => ⟨true, none⟩
  | FsOp.chmod => ⟨true, none⟩
  | FsOp.create => ⟨false, none⟩

/-- The delayed re-watch goroutine (the `go func` in `Server.watcher`):
sleep 100ms, `w.Add(s.path)`, and on failure only log. Returns its log
lines; it has no effect on the watcher loop either way. -/
def rewatchRun (addErr : Option String) : List String :=
  match addErr with
  | some _ => ["failed to re-add watch"]
  | none => []

/-- Watcher control point: in its `select` loop, blocked inside the
channel send `changes <- struct{}{}`, or returned. -/
inductive WPhase where
  | selecting
  | emitting
  | done
deriving DecidableEq

/-- Configuration of the watcher goroutine together with the capacity-1
`changes` channel it sends on: whether the shared context is cancelled,
the channel's buffer contents (at most one), the watcher's control
point, and the re-watch tasks scheduled so far (their delays, ms). -/
structure WatcherCfg where
  cancelled : Bool
  queue : List Unit
  phase : WPhase
  rewatches : List Nat
deriving DecidableEq

/-- One stimulus to the watcher: the `select` observing `ctx.Done()`, a
filesystem event, a watch error, one of the fsnotify channels closing,
or the writer loop receiving from the `changes` channel. -/
inductive WStim where
  | observeCancel
  | fsEvent (op : FsOp)
  | fsError (e : String)
  | eventsClosed
  | errorsClosed
  | consume
deriving DecidableEq

/-- Small-step semantics of `Server.watcher` (server.go) around the
capacity-1 `changes` channel. The emit is the plain send
`changes <- struct{}{}`: it completes at once when the buffer has room,
and otherwise the watcher moves to (and stays in) the blocked-send
point `emitting`, which only a `consume` by the writer leaves — no
other stimulus, cancellation included, changes a blocked
configuration. -/
def watcherStep (c : WatcherCfg) (s : WStim) : WatcherCfg :=
  match c.phase with
  | WPhase.done => c
  | WPhase.emitting =>
    match s with
    | WStim.consume => { c with queue := [()], phase := WPhase.selecting }
    | _ => c
  | WPhase.selecting =>
    match s with
    | WStim.observeCancel =>
        if c.cancelled then { c with phase := WPhase.done } else c
    | WStim.eventsClosed => { c with phase := WPhase.done }
    | WStim.errorsClosed => { c with phase := WPhase.done }
    | WStim.fsError _ => c
    | WStim.consume => { c with queue := [] }
    | WStim.fsEvent op =>
      let a := classifyEvent op
      let c1 :=
        match a.rewatchDelayMs with
        | some d => { c with rewatches := c.rewatches ++ [d] }
        | none => c
      if a.emit then
        if c1.queue.length < 1 then { c1 with queue := c1.queue ++ [()] }
        else { c1 with phase := WPhase.emitting }
      else c1

/-- The watcher run over a finite stimulus sequence. -/
def watcherRun (c : WatcherCfg) (stims : List WStim) : WatcherCfg :=
  stims.foldl watcherStep c

/-- C8: classification of filesystem events by the watcher. With room
in the queue, a `Write` or `Chmod` event emits a change notification at
once and schedules nothing; a `Remove` or `Rename` event also emits at
once and additionally schedules a re-watch of the same path after the
fixed 100ms delay on a separate goroutine, whose failure is only
logged — it never affects the watcher. -/
theorem watcher_classification (c : WatcherCfg) (op : FsOp)
    (hp : c.phase = WPhase.selecting) (hq : c.queue = []) :
    ((op = FsOp.write ∨ op = FsOp.chmod) →
      watcherStep c (WStim.fsEvent op) = { c with queue := [()] }) ∧
    ((op = FsOp.remove ∨ op = FsOp.rename) →
      watcherStep c (WStim.fsEvent op) =
        { c with queue := [()], rewatches := c.rewatches ++ [100] }) ∧
    (∀ e, rewatchRun (some e) = ["failed to re-add watch"]) ∧
    rewatchRun none = [] := by
  obtain ⟨cn, q, ph, rws⟩ := c
  simp only at hp hq
  subst hp; subst hq
  refine ⟨fun h => ?_, fun h => ?_, fun e => rfl, rfl⟩
  · rcases h with h | h <;> subst h <;> rfl
  · rcases h with h | h <;> subst h <;> rfl

/-- Witness for C8: a `Rename` event with an empty queue emits and
schedules the 100ms re-watch. -/
theorem watcher_classification_witness :
    watcherStep ⟨false, [], WPhase.selecting, []⟩ (WStim.fsEvent FsOp.rename) =
      ⟨false, [()], WPhase.selecting, [100]⟩ :=
  (watcher_classification ⟨false, [], WPhase.selecting, []⟩ FsOp.rename
      rfl rfl).2.1 (Or.inr rfl)

/-- C3 (the code, at the claim's failing input): with the capacity-1
queue already full, the watcher's emit is a plain blocking channel
send. Classifying one more `Write` event moves the watcher into the
blocked-send point, where further filesystem events change nothing —
the notification is not dropped and the watcher cannot proceed to
classify the next event while the writer is not consuming. -/
theorem watcher_blocks_on_full_queue :
    watcherStep ⟨false, [()], WPhase.selecting, []⟩
        (WStim.fsEvent FsOp.write) =
      ⟨false, [()], WPhase.emitting, []⟩ ∧
    watcherStep ⟨false, [()], WPhase.emitting, []⟩
        (WStim.fsEvent FsOp.write) =
      ⟨false, [()], WPhase.emitting, []⟩ ∧
    watcherRun ⟨false, [()], WPhase.emitting, []⟩
        [WStim.fsEvent FsOp.write, WStim.fsEvent FsOp.chmod,
         WStim.fsEvent FsOp.remove] =
      ⟨false, [()], WPhase.emitting, []⟩ := by
  decide

/-- C4 (the code, at the claim's failing input): after the cancellation
signal has fired, a watcher that picks up one more filesystem event
while the queue is full enters the blocked send, and from there the
fired cancellation is never observed — the blocked configuration is a
fixed point of every further cancellation observation, so the watcher
does not terminate within any bound. -/
theorem watcher_unbounded_after_cancel :
    watcherRun ⟨true, [()], WPhase.selecting, []⟩
        [WStim.fsEvent FsOp.write] =
      ⟨true, [()], WPhase.emitting, []⟩ ∧
    watcherStep ⟨true, [()], WPhase.emitting, []⟩ WStim.observeCancel =
      ⟨true, [()], WPhase.emitting, []⟩ ∧
    watcherRun ⟨true, [()], WPhase.emitting, []⟩
        (List.replicate 8 WStim.observeCancel) =
      ⟨true, [()], WPhase.emitting, []⟩ ∧
    (⟨true, [()], WPhase.emitting, []⟩ : WatcherCfg).phase ≠ WPhase.done := by
  decide

end Mdpreview
